import Mathlib

/-!
Shallow embedding of the SVG map renderer in rpg-dm-tools/utils/svg.py.

The Python module is a pure string-assembly routine over a static position
table.  Python integers are modelled as Int, the insertion-ordered dicts as
association lists, and the dynamic-typing failure mode of a non-dict
"exits" value as an Except error (the AttributeError that exits.items()
would raise).  All string construction follows the f-strings of the source
character for character.
-/

set_option maxRecDepth 100000

namespace Svg

/-- Room layout positions, from ROOM_POSITIONS: identifier to
(grid_x, grid_y, level); level 0 is ground, -1 is below. -/
def ROOM_POSITIONS : List (String × Int × Int × Int) :=
  [ ("tavern", 2, 3, 0),
    ("cellar", 2, 3, -1),
    ("street", 2, 2, 0),
    ("market", 3, 2, 0),
    ("blacksmith", 3, 1, 0),
    ("temple", 1, 2, 0),
    ("village_gate", 2, 1, 0),
    ("forest_path", 2, 0, 0) ]

def CELL_SIZE : Int := 100

def ROOM_WIDTH : Int := 80

def ROOM_HEIGHT : Int := 50

def PADDING : Int := 60

/-- Dict lookup in ROOM_POSITIONS (keys of the literal are distinct). -/
def posLookup (room_id : String) : Option (Int × Int × Int) :=
  (ROOM_POSITIONS.find? fun p => p.1 == room_id).map fun p => p.2

/-- The pixel center a ground-level (level at least 0) entry of grid cell
(gx, gy) would get in get_room_center: x = PADDING + grid_x * CELL_SIZE,
y = PADDING + grid_y * CELL_SIZE, no offset. -/
def ground_center (gx gy : Int) : Int × Int :=
  (PADDING + gx * CELL_SIZE, PADDING + gy * CELL_SIZE)

/-- get_room_center: (0,0) for identifiers outside ROOM_POSITIONS,
otherwise the grid position scaled into pixels, with a (+15,+15) offset
for underground rooms (level < 0). -/
def get_room_center (room_id : String) : Int × Int :=
  match posLookup room_id with
  | none => (0, 0)
  | some p =>
    let x := PADDING + p.1 * CELL_SIZE
    let y := PADDING + p.2.1 * CELL_SIZE
    if p.2.2 < 0 then (x + 15, y + 15) else (x, y)

/-- Python str.replace of the single character underscore by a space,
which is a character map. -/
def pyReplaceUnderscore (s : String) : String :=
  ⟨s.data.map fun c => if c == '_' then ' ' else c⟩

/-- Python str.title over ASCII text: an alphabetic character is
uppercased when the previous character is not alphabetic and lowercased
otherwise; other characters pass through. -/
def pyTitleAux : Bool → List Char → List Char
  | _, [] => []
  | prevCased, c :: cs =>
    if c.isAlpha then
      (if prevCased then c.toLower else c.toUpper) :: pyTitleAux true cs
    else
      c :: pyTitleAux false cs

def pyTitle (s : String) : String :=
  ⟨pyTitleAux false s.data⟩

/-- The display-name formatting of render_room, lines 80-82 of the source:
replace underscores by spaces, title-case, and truncate to the first 11
characters plus "..." when the result is longer than 12 characters. -/
def formatDisplayName (name : String) : String :=
  let display_name := pyTitle (pyReplaceUnderscore name)
  if display_name.length > 12 then ⟨display_name.data.take 11⟩ ++ "..." else display_name

/-- render_room: the four-line rect-and-text SVG fragment for one room. -/
def render_room (room_id name : String) (is_current : Bool) (level : Int) : String :=
  let c := get_room_center room_id
  let x := c.1
  let y := c.2
  let fill := if is_current then "#4a9eff" else "#e8e8e8"
  let stroke := if is_current then "#2563eb" else "#666"
  let stroke_width := if is_current then "3" else "2"
  let text_color := if is_current then "#ffffff" else "#333"
  let stroke_dash := if level < 0 then "5,3" else ""
  let dash_attr := if stroke_dash == "" then "" else " stroke-dasharray=\"" ++ stroke_dash ++ "\""
  let display_name := formatDisplayName name
  let rect_x := x - ROOM_WIDTH / 2
  let rect_y := y - ROOM_HEIGHT / 2
  "  <rect x=\"" ++ toString rect_x ++ "\" y=\"" ++ toString rect_y ++
    "\" width=\"" ++ toString ROOM_WIDTH ++ "\" height=\"" ++ toString ROOM_HEIGHT ++
    "\"\n        rx=\"8\" fill=\"" ++ fill ++ "\" stroke=\"" ++ stroke ++
    "\" stroke-width=\"" ++ stroke_width ++ "\"" ++ dash_attr ++ "/>\n  <text x=\"" ++
    toString x ++ "\" y=\"" ++ toString (y + 5) ++
    "\" text-anchor=\"middle\" font-family=\"Arial, sans-serif\"\n        font-size=\"11\" fill=\"" ++
    text_color ++ "\" font-weight=\"" ++ (if is_current then "bold" else "normal") ++
    "\">" ++ display_name ++ "</text>"

/-- The final f-string of render_connection. -/
def mkLine (x1 y1 x2 y2 : Int) (dash : String) : String :=
  "  <line x1=\"" ++ toString x1 ++ "\" y1=\"" ++ toString y1 ++
    "\" x2=\"" ++ toString x2 ++ "\" y2=\"" ++ toString y2 ++
    "\" stroke=\"#888\" stroke-width=\"2\"" ++ dash ++ "/>"

/-- render_connection: a line between the two room centers, endpoints
pulled to box edges according to the direction label; dashed for the
vertical directions; unknown directions get the unadjusted centers. -/
def render_connection (from_room to_room direction : String) : String :=
  let fc := get_room_center from_room
  let tc := get_room_center to_room
  let pts :=
    if direction == "north" then
      ((fc.1, fc.2 - ROOM_HEIGHT / 2), (tc.1, tc.2 + ROOM_HEIGHT / 2))
    else if direction == "south" then
      ((fc.1, fc.2 + ROOM_HEIGHT / 2), (tc.1, tc.2 - ROOM_HEIGHT / 2))
    else if direction == "east" then
      ((fc.1 + ROOM_WIDTH / 2, fc.2), (tc.1 - ROOM_WIDTH / 2, tc.2))
    else if direction == "west" then
      ((fc.1 - ROOM_WIDTH / 2, fc.2), (tc.1 + ROOM_WIDTH / 2, tc.2))
    else if direction == "up" || direction == "down" then
      let fx := fc.1 + ROOM_WIDTH / 2 - 10
      let tx := tc.1 + ROOM_WIDTH / 2 - 10
      if direction == "down" then
        ((fx, fc.2 + ROOM_HEIGHT / 2), (tx, tc.2 - ROOM_HEIGHT / 2))
      else
        ((fx, fc.2 - ROOM_HEIGHT / 2), (tx, tc.2 + ROOM_HEIGHT / 2))
    else
      ((fc.1, fc.2), (tc.1, tc.2))
  let is_vertical := direction == "up" || direction == "down"
  let dash := if is_vertical then " stroke-dasharray=\"4,2\"" else ""
  mkLine pts.1.1 pts.1.2 pts.2.1 pts.2.2 dash

/-- render_vertical_indicator: up/down triangle markers at the right edge
of the room box; empty when neither flag is set. -/
def render_vertical_indicator (room_id : String) (has_up has_down : Bool) : String :=
  if !has_up && !has_down then ""
  else
    let c := get_room_center room_id
    let ind_x := c.1 + ROOM_WIDTH / 2 - 8
    let upElems :=
      if has_up then
        let ind_y := c.2 - ROOM_HEIGHT / 2 + 8
        ["  <polygon points=\"" ++ toString ind_x ++ "," ++ toString ind_y ++ " " ++
          toString (ind_x - 5) ++ "," ++ toString (ind_y + 8) ++ " " ++
          toString (ind_x + 5) ++ "," ++ toString (ind_y + 8) ++
          "\" fill=\"#666\" stroke=\"none\"/>"]
      else []
    let downElems :=
      if has_down then
        let ind_y := c.2 + ROOM_HEIGHT / 2 - 8
        ["  <polygon points=\"" ++ toString ind_x ++ "," ++ toString ind_y ++ " " ++
          toString (ind_x - 5) ++ "," ++ toString (ind_y - 8) ++ " " ++
          toString (ind_x + 5) ++ "," ++ toString (ind_y - 8) ++
          "\" fill=\"#666\" stroke=\"none\"/>"]
      else []
    String.intercalate "\n" (upElems ++ downElems)

/-- The value found under the "exits" key of a room record: either a dict
of direction label to target identifier, or some non-dict Python value
(on which the dict operations of the source raise). -/
inductive ExitsVal where
  | dict (items : List (String × String))
  | nonDict
  deriving DecidableEq

/-- One room record of the input mapping: the "exits" entry may be absent
(none) or hold any value. -/
structure RoomData where
  exits : Option ExitsVal
  deriving DecidableEq

/-- room_data.get("exits", {}): the stored value, or an empty dict when
the key is absent. -/
def pyGetExits (rd : RoomData) : ExitsVal :=
  rd.exits.getD (ExitsVal.dict [])

/-- exits.items(): the key-value pairs of a dict, or the AttributeError a
non-dict value raises. -/
def exitsItems : ExitsVal → Except String (List (String × String))
  | ExitsVal.dict l => Except.ok l
  | ExitsVal.nonDict => Except.error "AttributeError: object has no attribute items"

/-- Python membership test on the exits value: key containment for a
dict, the TypeError a non-iterable value raises otherwise. -/
def exitsContains : ExitsVal → String → Except String Bool
  | ExitsVal.dict l, k => Except.ok (l.any fun p => p.1 == k)
  | ExitsVal.nonDict, _ => Except.error "TypeError: argument is not iterable"

/-- Input mappings whose "exits" entries, where present, are dicts. -/
def WellFormedRooms (rooms : List (String × RoomData)) : Prop :=
  ∀ p ∈ rooms, p.2.exits ≠ some ExitsVal.nonDict

instance (rooms : List (String × RoomData)) : Decidable (WellFormedRooms rooms) :=
  List.decidableBAll _ rooms

/-- Lexicographic code-point comparison of two character lists, the
order Python uses on strings. -/
def strLt : List Char → List Char → Bool
  | [], [] => false
  | [], _ :: _ => true
  | _ :: _, [] => false
  | a :: as, b :: bs => if a < b then true else if b < a then false else strLt as bs

/-- tuple(sorted([a, b])): the unordered pair of two identifiers as a
sorted tuple (the sort swaps exactly when b compares below a). -/
def connKey (a b : String) : String × String :=
  if strLt b.data a.data then (b, a) else (a, b)

/-- The inner loop of the connections pass of render_map_svg over the
exits of one room: skip targets outside ROOM_POSITIONS, skip unordered
pairs already drawn, and otherwise record the pair and emit the
connection fragment.  Returns the updated drawn set and the list of
(pair, fragment) in emission order. -/
def drawExits (room_id : String) :
    List (String × String) → List (String × String) →
    List (String × String) × List ((String × String) × String)
  | [], drawn => (drawn, [])
  | (direction, target_room) :: rest, drawn =>
    if (posLookup target_room).isNone then drawExits room_id rest drawn
    else if connKey room_id target_room ∈ drawn then drawExits room_id rest drawn
    else
      ((drawExits room_id rest (connKey room_id target_room :: drawn)).1,
       (connKey room_id target_room, render_connection room_id target_room direction) ::
         (drawExits room_id rest (connKey room_id target_room :: drawn)).2)

/-- The connections pass of render_map_svg: rooms outside ROOM_POSITIONS
are skipped; exits.items() on a non-dict value aborts with the raised
error. -/
def drawConnections :
    List (String × RoomData) → List (String × String) →
    Except String (List (String × String) × List ((String × String) × String))
  | [], drawn => Except.ok (drawn, [])
  | (room_id, room_data) :: rest, drawn =>
    match posLookup room_id with
    | none => drawConnections rest drawn
    | some _ =>
      match exitsItems (pyGetExits room_data) with
      | Except.error e => Except.error e
      | Except.ok items =>
        match drawConnections rest (drawExits room_id items drawn).1 with
        | Except.error e => Except.error e
        | Except.ok q => Except.ok (q.1, (drawExits room_id items drawn).2 ++ q.2)

/-- One drawn room of the rooms pass: its identifier, whether it was
marked current, its box fragment, and its indicator fragment when
non-empty. -/
structure RoomEntry where
  id : String
  isCur : Bool
  box : String
  indicator : Option String
  deriving DecidableEq

/-- The rooms pass of render_map_svg: for each supplied room present in
ROOM_POSITIONS, the box fragment (current iff the identifier equals the
current room) and, when non-empty, the vertical-indicator fragment. -/
def drawRooms (current_room : String) :
    List (String × RoomData) → Except String (List RoomEntry)
  | [] => Except.ok []
  | (room_id, room_data) :: rest =>
    match posLookup room_id with
    | none => drawRooms current_room rest
    | some pos =>
      let level := pos.2.2
      let is_current := room_id == current_room
      let box := render_room room_id room_id is_current level
      match exitsContains (pyGetExits room_data) "up" with
      | Except.error e => Except.error e
      | Except.ok has_up =>
        match exitsContains (pyGetExits room_data) "down" with
        | Except.error e => Except.error e
        | Except.ok has_down =>
          let ind := render_vertical_indicator room_id has_up has_down
          match drawRooms current_room rest with
          | Except.error e => Except.error e
          | Except.ok es =>
            Except.ok ({ id := room_id, isCur := is_current, box := box,
                         indicator := if ind == "" then none else some ind } :: es)

/-- The parts a list of room entries contributes to svg_parts: each box,
followed by the indicator when it was non-empty. -/
def roomEntryParts (es : List RoomEntry) : List String :=
  es.flatMap fun e => e.box :: e.indicator.toList

/-- max(pos[0] for pos in ROOM_POSITIONS.values()) + 1 (the grid entries
are non-negative, so folding max from 0 agrees with the Python max). -/
def max_x : Int :=
  ((ROOM_POSITIONS.map fun p => p.2.1).foldl max 0) + 1

/-- max(pos[1] for pos in ROOM_POSITIONS.values()) + 1. -/
def max_y : Int :=
  ((ROOM_POSITIONS.map fun p => p.2.2.1).foldl max 0) + 1

def svg_width : Int := PADDING * 2 + max_x * CELL_SIZE

def svg_height : Int := PADDING * 2 + max_y * CELL_SIZE

/-- The opening svg element with the computed viewBox. -/
def svgOpen : String :=
  "<svg viewBox=\"0 0 " ++ toString svg_width ++ " " ++ toString svg_height ++
    "\" xmlns=\"http://www.w3.org/2000/svg\">"

/-- The background rectangle filling the canvas. -/
def bgRect : String :=
  "  <rect width=\"" ++ toString svg_width ++ "\" height=\"" ++ toString svg_height ++
    "\" fill=\"#f5f5f5\"/>"

/-- The fixed first five entries of svg_parts. -/
def svgHeaderParts : List String :=
  [svgOpen, "  <!-- Background -->", bgRect, "", "  <!-- Connections -->"]

/-- The legend line, built from the current-room identifier alone. -/
def legendLine (current_room : String) : String :=
  "  <text x=\"10\" y=\"" ++ toString (svg_height - 10) ++
    "\" font-family=\"Arial, sans-serif\" font-size=\"10\" fill=\"#666\">Current location: " ++
    pyTitle (pyReplaceUnderscore current_room) ++ "</text>"

/-- render_map_svg up to the final join: the svg_parts list in emission
order, or the error raised while iterating the exits. -/
def render_map_svg_parts (rooms : List (String × RoomData)) (current_room : String) :
    Except String (List String) :=
  match drawConnections rooms [] with
  | Except.error e => Except.error e
  | Except.ok r =>
    match drawRooms current_room rooms with
    | Except.error e => Except.error e
    | Except.ok es =>
      Except.ok (svgHeaderParts ++ r.2.map Prod.snd ++
        ["", "  <!-- Rooms -->"] ++ roomEntryParts es ++
        ["", "  <!-- Legend -->", legendLine current_room, "</svg>"])

/-- render_map_svg: the svg_parts joined by newlines. -/
def render_map_svg (rooms : List (String × RoomData)) (current_room : String) :
    Except String String :=
  match render_map_svg_parts rooms current_room with
  | Except.error e => Except.error e
  | Except.ok parts => Except.ok (String.intercalate "\n" parts)

/-- Whether the character list p occurs at the head of s. -/
def leadsWith : List Char → List Char → Bool
  | _, [] => true
  | [], _ :: _ => false
  | c :: cs, p :: ps => c == p && leadsWith cs ps

/-- The number of positions of s at which the non-empty pattern occurs. -/
def countOcc : List Char → List Char → Nat
  | [], _ => 0
  | c :: cs, pat => (if leadsWith (c :: cs) pat then 1 else 0) + countOcc cs pat

/-- Occurrence count of a pattern inside a string. -/
def countSubstr (s pat : String) : Nat :=
  countOcc s.data pat.data

/-- The two-location input of the end-to-end example: tavern with no
exits, street with one exit north to village_gate. -/
def c1Rooms : List (String × RoomData) :=
  [("tavern", ⟨some (ExitsVal.dict [])⟩),
   ("street", ⟨some (ExitsVal.dict [("north", "village_gate")])⟩)]

/-- Two locations referencing each other through opposite exits. -/
def c2Rooms : List (String × RoomData) :=
  [("street", ⟨some (ExitsVal.dict [("north", "village_gate")])⟩),
   ("village_gate", ⟨some (ExitsVal.dict [("south", "street")])⟩)]

/-- One positioned location whose exits entry holds a non-dict value. -/
def c3Rooms : List (String × RoomData) :=
  [("tavern", ⟨some ExitsVal.nonDict⟩)]

/- ### Helper lemmas -/

theorem data_append (s t : String) : (s ++ t).data = s.data ++ t.data := rfl

theorem leadsWith_nil (l : List Char) : leadsWith l [] = true := by
  cases l <;> rfl

theorem leadsWith_append_of (s rest pat : List Char) (h : leadsWith s pat = true) :
    leadsWith (s ++ rest) pat = true := by
  induction pat generalizing s with
  | nil => exact leadsWith_nil _
  | cons p ps ih =>
    cases s with
    | nil => simp [leadsWith] at h
    | cons c cs =>
      simp only [leadsWith, Bool.and_eq_true] at h
      simpa [leadsWith, h.1] using ih cs h.2

theorem leads_str_append (s t : String) (pat : List Char)
    (h : leadsWith s.data pat = true) : leadsWith (s ++ t).data pat = true := by
  rw [data_append]
  exact leadsWith_append_of _ _ _ h

theorem mkLine_leads (x1 y1 x2 y2 : Int) (dash : String) :
    leadsWith (mkLine x1 y1 x2 y2 dash).data ("  <line").data = true := by
  unfold mkLine
  repeat apply leads_str_append
  decide

theorem render_connection_leads (a t d : String) :
    leadsWith (render_connection a t d).data ("  <line").data = true := by
  unfold render_connection
  split <;> [skip; split] <;> [apply mkLine_leads; apply mkLine_leads; apply mkLine_leads]

theorem render_room_leads (room_id name : String) (is_current : Bool) (level : Int) :
    leadsWith (render_room room_id name is_current level).data ("  <rect").data = true := by
  unfold render_room
  repeat apply leads_str_append
  decide

theorem drawExits_inv (room_id : String) (items : List (String × String)) :
    ∀ drawn : List (String × String),
      ((drawExits room_id items drawn).2.map Prod.fst).Nodup ∧
      (∀ k ∈ (drawExits room_id items drawn).2.map Prod.fst, k ∉ drawn) ∧
      (∀ k, (k ∈ drawn ∨ k ∈ (drawExits room_id items drawn).2.map Prod.fst) →
        k ∈ (drawExits room_id items drawn).1) ∧
      (∀ p ∈ (drawExits room_id items drawn).2,
        ∃ t d, p.2 = render_connection room_id t d) := by
  induction items with
  | nil =>
    intro drawn
    simp [drawExits]
  | cons hd tl ih =>
    intro drawn
    obtain ⟨d, t⟩ := hd
    by_cases hpos : (posLookup t).isNone
    · simpa only [drawExits, if_pos hpos] using ih drawn
    · by_cases hmem : connKey room_id t ∈ drawn
      · simpa only [drawExits, if_neg hpos, if_pos hmem] using ih drawn
      · obtain ⟨ih1, ih2, ih3, ih4⟩ := ih (connKey room_id t :: drawn)
        simp only [drawExits, if_neg hpos, if_neg hmem, List.map_cons, List.mem_cons]
        refine ⟨?_, ?_, ?_, ?_⟩
        · refine List.nodup_cons.mpr ⟨fun hk => ?_, ih1⟩
          exact ih2 _ hk (List.mem_cons_self _ _)
        · rintro k (rfl | hk)
          · exact hmem
          · exact fun hkd => ih2 k hk (List.mem_cons_of_mem _ hkd)
        · rintro k (hk | rfl | hk)
          · exact ih3 k (Or.inl (List.mem_cons_of_mem _ hk))
          · exact ih3 _ (Or.inl (List.mem_cons_self _ _))
          · exact ih3 k (Or.inr hk)
        · rintro p (rfl | hp)
          · exact ⟨t, d, rfl⟩
          · exact ih4 p hp

theorem drawConnections_inv :
    ∀ (rooms : List (String × RoomData)) (drawn d' : List (String × String))
      (es : List ((String × String) × String)),
      drawConnections rooms drawn = Except.ok (d', es) →
      (es.map Prod.fst).Nodup ∧
      (∀ k ∈ es.map Prod.fst, k ∉ drawn) ∧
      (∀ k, (k ∈ drawn ∨ k ∈ es.map Prod.fst) → k ∈ d') ∧
      (∀ p ∈ es, ∃ a t d, p.2 = render_connection a t d) := by
  intro rooms
  induction rooms with
  | nil =>
    intro drawn d' es h
    simp only [drawConnections] at h
    injection h with h'
    obtain ⟨rfl, rfl⟩ : drawn = d' ∧ ([] : List ((String × String) × String)) = es :=
      ⟨congrArg Prod.fst h', congrArg Prod.snd h'⟩
    simp
  | cons hd tl ih =>
    intro drawn d' es h
    obtain ⟨room_id, room_data⟩ := hd
    simp only [drawConnections] at h
    split at h
    · exact ih drawn d' es h
    · rename_i pos hpos
      split at h
      · exact absurd h (by simp)
      · rename_i items hitems
        split at h
        · exact absurd h (by simp)
        · rename_i q hrec
          injection h with h'
          obtain ⟨rfl, rfl⟩ :
              q.1 = d' ∧ (drawExits room_id items drawn).2 ++ q.2 = es :=
            ⟨congrArg Prod.fst h', congrArg Prod.snd h'⟩
          obtain ⟨e1, e2, e3, e4⟩ := drawExits_inv room_id items drawn
          obtain ⟨i1, i2, i3, i4⟩ := ih _ _ _ hrec
          refine ⟨?_, ?_, ?_, ?_⟩
          · rw [List.map_append]
            refine List.Nodup.append e1 i1 ?_
            intro k hk1 hk2
            exact i2 k hk2 (e3 k (Or.inr hk1))
          · rw [List.map_append]
            intro k hk
            rcases List.mem_append.mp hk with hk | hk
            · exact e2 k hk
            · exact fun hkd => i2 k hk (e3 k (Or.inl hkd))
          · rw [List.map_append]
            intro k hk
            rcases hk with hk | hk
            · exact i3 k (Or.inl (e3 k (Or.inl hk)))
            · rcases List.mem_append.mp hk with hk | hk
              · exact i3 k (Or.inl (e3 k (Or.inr hk)))
              · exact i3 k (Or.inr hk)
          · intro p hp
            rcases List.mem_append.mp hp with hp | hp
            · obtain ⟨t, dd, hpd⟩ := e4 p hp
              exact ⟨room_id, t, dd, hpd⟩
            · exact i4 p hp

theorem drawConnections_ok_of_wf :
    ∀ (rooms : List (String × RoomData)) (drawn : List (String × String)),
      WellFormedRooms rooms → ∃ r, drawConnections rooms drawn = Except.ok r := by
  intro rooms
  induction rooms with
  | nil => exact fun drawn _ => ⟨(drawn, []), rfl⟩
  | cons hd tl ih =>
    intro drawn h
    obtain ⟨room_id, room_data⟩ := hd
    have hhd : room_data.exits ≠ some ExitsVal.nonDict :=
      h (room_id, room_data) (List.mem_cons_self _ _)
    have htl : WellFormedRooms tl := fun p hp => h p (List.mem_cons_of_mem _ hp)
    cases hpos : posLookup room_id with
    | none =>
      obtain ⟨q, hq⟩ := ih drawn htl
      exact ⟨q, by simp only [drawConnections, hpos, hq]⟩
    | some pos =>
      obtain ⟨items, hi⟩ : ∃ items, exitsItems (pyGetExits room_data) = Except.ok items := by
        cases he : room_data.exits with
        | none => exact ⟨[], by simp [pyGetExits, he, exitsItems]⟩
        | some v =>
          cases v with
          | dict l => exact ⟨l, by simp [pyGetExits, he, exitsItems]⟩
          | nonDict => exact absurd he hhd
      obtain ⟨q, hq⟩ := ih (drawExits room_id items drawn).1 htl
      exact ⟨(q.1, (drawExits room_id items drawn).2 ++ q.2),
        by simp only [drawConnections, hpos, hi, hq]⟩

theorem drawRooms_ok_of_wf :
    ∀ (rooms : List (String × RoomData)) (cur : String),
      WellFormedRooms rooms → ∃ es, drawRooms cur rooms = Except.ok es := by
  intro rooms
  induction rooms with
  | nil => exact fun cur _ => ⟨[], rfl⟩
  | cons hd tl ih =>
    intro cur h
    obtain ⟨room_id, room_data⟩ := hd
    have hhd : room_data.exits ≠ some ExitsVal.nonDict :=
      h (room_id, room_data) (List.mem_cons_self _ _)
    have htl : WellFormedRooms tl := fun p hp => h p (List.mem_cons_of_mem _ hp)
    cases hpos : posLookup room_id with
    | none =>
      obtain ⟨es, hes⟩ := ih cur htl
      exact ⟨es, by simp only [drawRooms, hpos, hes]⟩
    | some pos =>
      obtain ⟨b, hb⟩ : ∃ b, exitsContains (pyGetExits room_data) "up" = Except.ok b := by
        cases he : room_data.exits with
        | none => exact ⟨false, by simp [pyGetExits, he, exitsContains]⟩
        | some v =>
          cases v with
          | dict l => exact ⟨l.any fun p => p.1 == "up", by simp [pyGetExits, he, exitsContains]⟩
          | nonDict => exact absurd he hhd
      obtain ⟨b2, hb2⟩ : ∃ b2, exitsContains (pyGetExits room_data) "down" = Except.ok b2 := by
        cases he : room_data.exits with
        | none => exact ⟨false, by simp [pyGetExits, he, exitsContains]⟩
        | some v =>
          cases v with
          | dict l => exact ⟨l.any fun p => p.1 == "down", by simp [pyGetExits, he, exitsContains]⟩
          | nonDict => exact absurd he hhd
      obtain ⟨es, hes⟩ := ih cur htl
      refine ⟨{ id := room_id, isCur := room_id == cur,
                box := render_room room_id room_id (room_id == cur) pos.2.2,
                indicator :=
                  if render_vertical_indicator room_id b b2 == "" then none
                  else some (render_vertical_indicator room_id b b2) } :: es, ?_⟩
      simp only [drawRooms, hpos, hb, hb2, hes]

theorem drawRooms_mem :
    ∀ (cur : String) (rooms : List (String × RoomData)) (es : List RoomEntry),
      drawRooms cur rooms = Except.ok es →
      ∀ e ∈ es, e.id ∈ rooms.map Prod.fst ∧ e.isCur = (e.id == cur) ∧
        ∃ pos, posLookup e.id = some pos ∧
          e.box = render_room e.id e.id e.isCur pos.2.2 := by
  intro cur rooms
  induction rooms with
  | nil =>
    intro es h e he
    simp only [drawRooms] at h
    obtain rfl : ([] : List RoomEntry) = es := by injection h
    simp at he
  | cons hd tl ih =>
    intro es h e he
    obtain ⟨room_id, room_data⟩ := hd
    simp only [drawRooms] at h
    split at h
    · obtain ⟨h1, h2, h3⟩ := ih es h e he
      exact ⟨List.mem_cons_of_mem _ h1, h2, h3⟩
    · rename_i pos hpos
      split at h
      · exact absurd h (by simp)
      · rename_i has_up hb
        split at h
        · exact absurd h (by simp)
        · rename_i has_down hb2
          split at h
          · exact absurd h (by simp)
          · rename_i es0 hrec
            injection h with h'
            subst h'
            rcases List.mem_cons.mp he with rfl | he2
            · refine ⟨?_, rfl, pos, hpos, rfl⟩
              simp
            · obtain ⟨h1, h2, h3⟩ := ih es0 hrec e he2
              exact ⟨List.mem_cons_of_mem _ h1, h2, h3⟩

theorem render_parts_eq (rooms : List (String × RoomData)) (cur : String)
    (r : List (String × String) × List ((String × String) × String))
    (es : List RoomEntry)
    (h1 : drawConnections rooms [] = Except.ok r)
    (h2 : drawRooms cur rooms = Except.ok es) :
    render_map_svg_parts rooms cur = Except.ok (svgHeaderParts ++ r.2.map Prod.snd ++
      ["", "  <!-- Rooms -->"] ++ roomEntryParts es ++
      ["", "  <!-- Legend -->", legendLine cur, "</svg>"]) := by
  unfold render_map_svg_parts
  rw [h1, h2]

theorem length_take_append (l : List Char) :
    ((String.mk (l.take 11)) ++ "...").length = min 11 l.length + 3 := by
  have h : ((String.mk (l.take 11)) ++ "...").length = ((l.take 11) ++ "...".data).length := rfl
  have h3 : ("...".data).length = 3 := rfl
  rw [h, List.length_append, List.length_take, h3]

/- ### Claims -/

/-- C5: for every display name, the label of the box renderer is the name
with underscores replaced by spaces and title-cased; if and only if this
formatted name exceeds 12 characters, the label is the first 11
characters of it followed by "..."; in particular "village_gate" yields
the untruncated label "Village Gate". -/
theorem claim_C5 (name : String) :
    (12 < (pyTitle (pyReplaceUnderscore name)).length ↔
      formatDisplayName name =
        String.mk ((pyTitle (pyReplaceUnderscore name)).data.take 11) ++ "...") ∧
    ((pyTitle (pyReplaceUnderscore name)).length ≤ 12 →
      formatDisplayName name = pyTitle (pyReplaceUnderscore name)) ∧
    formatDisplayName "village_gate" = "Village Gate" := by
  refine ⟨⟨fun h => ?_, fun h => ?_⟩, fun h => ?_, by decide⟩
  · simp only [formatDisplayName]
    rw [if_pos h]
  · by_cases hlen : 12 < (pyTitle (pyReplaceUnderscore name)).length
    · exact hlen
    · exfalso
      simp only [formatDisplayName] at h
      rw [if_neg hlen] at h
      have hh := congrArg String.length h
      rw [length_take_append] at hh
      have hdl : (pyTitle (pyReplaceUnderscore name)).length =
          (pyTitle (pyReplaceUnderscore name)).data.length := rfl
      omega
  · simp only [formatDisplayName]
    rw [if_neg (by omega)]

/-- C5 witness: the formatted name of "village_gate" has at most 12
characters and its label is the formatted name itself. -/
theorem claim_C5_witness :
    formatDisplayName "village_gate" = pyTitle (pyReplaceUnderscore "village_gate") :=
  (claim_C5 "village_gate").2.1 (by decide)

/-- C10: whenever the formatted name exceeds 12 characters, the rendered
label has exactly 14 characters (11 kept plus the three-character
ellipsis), hence itself exceeds the 12-character threshold, and for a
13-character formatted name is longer than the untruncated name. -/
theorem claim_C10 (name : String)
    (h : 12 < (pyTitle (pyReplaceUnderscore name)).length) :
    (formatDisplayName name).length = 14 ∧
    12 < (formatDisplayName name).length ∧
    ((pyTitle (pyReplaceUnderscore name)).length = 13 →
      (pyTitle (pyReplaceUnderscore name)).length < (formatDisplayName name).length) := by
  have hlab : formatDisplayName name =
      String.mk ((pyTitle (pyReplaceUnderscore name)).data.take 11) ++ "..." := by
    simp only [formatDisplayName]
    rw [if_pos h]
  have hdl : (pyTitle (pyReplaceUnderscore name)).length =
      (pyTitle (pyReplaceUnderscore name)).data.length := rfl
  have hlen : (formatDisplayName name).length = 14 := by
    rw [hlab, length_take_append]
    omega
  exact ⟨hlen, by omega, fun _ => by omega⟩

/-- C10 witness: a name whose formatted form has 13 characters gets a
14-character label, longer than the untruncated name. -/
theorem claim_C10_witness :
    (formatDisplayName "abcdefghijklm").length = 14 ∧
    12 < (formatDisplayName "abcdefghijklm").length ∧
    (pyTitle (pyReplaceUnderscore "abcdefghijklm")).length <
      (formatDisplayName "abcdefghijklm").length := by
  obtain ⟨h1, h2, h3⟩ := claim_C10 "abcdefghijklm" (by decide)
  exact ⟨h1, h2, h3 (by decide)⟩

/-- C6: the coordinate mapper returns the fallback coordinate (0,0) on
every identifier that is not a key of ROOM_POSITIONS. -/
theorem claim_C6 (room_id : String) (h : posLookup room_id = none) :
    get_room_center room_id = (0, 0) := by
  simp [get_room_center, h]

/-- C6 witness: "nowhere" is not in the table and maps to (0,0). -/
theorem claim_C6_witness :
    posLookup "nowhere" = none ∧ get_room_center "nowhere" = (0, 0) :=
  ⟨by decide, claim_C6 "nowhere" (by decide)⟩

/-- C7: for every identifier in ROOM_POSITIONS with level < 0 the mapped
coordinate is the ground-level coordinate of the same grid cell shifted
by exactly (+15,+15), and for level at least 0 it is the unshifted
ground-level coordinate. -/
theorem claim_C7 (room_id : String) (gx gy lvl : Int)
    (h : posLookup room_id = some (gx, gy, lvl)) :
    (lvl < 0 → get_room_center room_id =
      ((ground_center gx gy).1 + 15, (ground_center gx gy).2 + 15)) ∧
    (0 ≤ lvl → get_room_center room_id = ground_center gx gy) := by
  refine ⟨fun hl => ?_, fun hl => ?_⟩
  · simp [get_room_center, h, ground_center, hl]
  · have hnl : ¬(lvl < 0) := by omega
    simp [get_room_center, h, ground_center, hnl]

/-- C7 witness: the underground cellar sits at the tavern grid cell
shifted by (+15,+15); the ground-level tavern is unshifted. -/
theorem claim_C7_witness :
    get_room_center "cellar" = ((ground_center 2 3).1 + 15, (ground_center 2 3).2 + 15) ∧
    get_room_center "tavern" = ground_center 2 3 :=
  ⟨(claim_C7 "cellar" 2 3 (-1) (by decide)).1 (by decide),
   (claim_C7 "tavern" 2 3 0 (by decide)).2 (by decide)⟩

/-- C3 counterexample: a positioned room whose exits entry is a non-dict
value makes render_map_svg raise (the AttributeError of exits.items()),
so the render operation does not succeed on every input mapping. -/
theorem claim_C3_counterexample :
    render_map_svg c3Rooms "tavern" =
      Except.error "AttributeError: object has no attribute items" := rfl

/-- C3 (amended): for every input mapping whose exits entries, where
present, are dicts, rendering completes and returns a document string
without error; a missing exits entry behaves as an empty exit dict; an
unknown direction label falls back to an unadjusted center-to-center
line (unknown identifiers are covered by C6). -/
theorem claim_C3 :
    (∀ (rooms : List (String × RoomData)) (cur : String), WellFormedRooms rooms →
      ∃ s, render_map_svg rooms cur = Except.ok s) ∧
    (∀ (room_id : String) (rest : List (String × RoomData)) (cur : String),
      render_map_svg ((room_id, ⟨none⟩) :: rest) cur =
        render_map_svg ((room_id, ⟨some (ExitsVal.dict [])⟩) :: rest) cur) ∧
    (∀ a t d : String,
      d ∉ (["north", "south", "east", "west", "up", "down"] : List String) →
      render_connection a t d =
        mkLine (get_room_center a).1 (get_room_center a).2
          (get_room_center t).1 (get_room_center t).2 "") := by
  refine ⟨fun rooms cur h => ?_, fun room_id rest cur => rfl, fun a t d hd => ?_⟩
  · obtain ⟨r, hr⟩ := drawConnections_ok_of_wf rooms [] h
    obtain ⟨es, hes⟩ := drawRooms_ok_of_wf rooms cur h
    refine ⟨String.intercalate "\n" (svgHeaderParts ++ r.2.map Prod.snd ++
      ["", "  <!-- Rooms -->"] ++ roomEntryParts es ++
      ["", "  <!-- Legend -->", legendLine cur, "</svg>"]), ?_⟩
    unfold render_map_svg
    rw [render_parts_eq rooms cur r es hr hes]
  · simp only [List.mem_cons, List.mem_singleton, not_or] at hd
    obtain ⟨h1, h2, h3, h4, h5, h6⟩ := hd
    simp [render_connection, h1, h2, h3, h4, h5, h6]

/-- C3 witness: the well-formed example input renders successfully, and a
connection with the unknown direction "teleport" is an unadjusted
center-to-center line. -/
theorem claim_C3_witness :
    (∃ s, render_map_svg c1Rooms "tavern" = Except.ok s) ∧
    render_connection "street" "village_gate" "teleport" =
      mkLine (get_room_center "street").1 (get_room_center "street").2
        (get_room_center "village_gate").1 (get_room_center "village_gate").2 "" :=
  ⟨claim_C3.1 c1Rooms "tavern" (by decide),
   claim_C3.2.2 "street" "village_gate" "teleport" (by decide)⟩

/-- C2: for every input mapping the unordered pairs of the emitted
connection fragments are pairwise distinct (each undirected connection
drawn at most once); in particular two locations referencing each other
through opposite exits yield exactly one connection line. -/
theorem claim_C2 :
    (∀ rooms : List (String × RoomData), WellFormedRooms rooms →
      ∃ r, drawConnections rooms [] = Except.ok r ∧ (r.2.map Prod.fst).Nodup) ∧
    (drawConnections c2Rooms []).map (fun r => r.2.map Prod.fst) =
      Except.ok [("street", "village_gate")] ∧
    (render_map_svg c2Rooms "street").map (fun s => countSubstr s "<line") =
      Except.ok 1 := by
  refine ⟨fun rooms h => ?_, by exact rfl, by exact rfl⟩
  obtain ⟨r, hr⟩ := drawConnections_ok_of_wf rooms [] h
  exact ⟨r, hr, (drawConnections_inv rooms [] r.1 r.2 hr).1⟩

/-- C2 witness: the opposite-exits example satisfies the deduplication
invariant. -/
theorem claim_C2_witness :
    ∃ r, drawConnections c2Rooms [] = Except.ok r ∧ (r.2.map Prod.fst).Nodup :=
  claim_C2.1 c2Rooms (by decide)

/-- C4: any two well-formed inputs produce the same opening viewBox line
and the same background rectangle; the canvas is the fixed 520 by 520
computed from the static table maxima plus padding on every side. -/
theorem claim_C4 (rooms1 : List (String × RoomData)) (cur1 : String)
    (rooms2 : List (String × RoomData)) (cur2 : String)
    (h1 : WellFormedRooms rooms1) (h2 : WellFormedRooms rooms2) :
    ∃ p1 p2, render_map_svg_parts rooms1 cur1 = Except.ok p1 ∧
      render_map_svg_parts rooms2 cur2 = Except.ok p2 ∧
      p1.head? = p2.head? ∧ p1.head? = some svgOpen ∧ p1[2]? = some bgRect ∧
      svgOpen = "<svg viewBox=\"0 0 520 520\" xmlns=\"http://www.w3.org/2000/svg\">" ∧
      bgRect = "  <rect width=\"520\" height=\"520\" fill=\"#f5f5f5\"/>" ∧
      svg_width = 520 ∧ svg_height = 520 := by
  obtain ⟨r1, hr1⟩ := drawConnections_ok_of_wf rooms1 [] h1
  obtain ⟨es1, hes1⟩ := drawRooms_ok_of_wf rooms1 cur1 h1
  obtain ⟨r2, hr2⟩ := drawConnections_ok_of_wf rooms2 [] h2
  obtain ⟨es2, hes2⟩ := drawRooms_ok_of_wf rooms2 cur2 h2
  exact ⟨_, _, render_parts_eq _ _ _ _ hr1 hes1, render_parts_eq _ _ _ _ hr2 hes2,
    rfl, rfl, rfl, by decide, by decide, by decide, by decide⟩

/-- C4 witness: the empty mapping and the two-room example get identical
opening lines. -/
theorem claim_C4_witness :
    ∃ p1 p2, render_map_svg_parts [] "x" = Except.ok p1 ∧
      render_map_svg_parts c1Rooms "tavern" = Except.ok p2 ∧ p1.head? = p2.head? := by
  obtain ⟨p1, p2, a1, a2, a3, _⟩ := claim_C4 [] "x" c1Rooms "tavern" (by decide) (by decide)
  exact ⟨p1, p2, a1, a2, a3⟩

/-- C8: the assembled document is the header, then every connection
fragment (each starting with a line element), then the room boxes (each
starting with a rect element) with their indicators, then the legend:
all connection lines appear in the parts list strictly before all room
boxes. -/
theorem claim_C8 (rooms : List (String × RoomData)) (cur : String)
    (h : WellFormedRooms rooms) :
    ∃ r es, drawConnections rooms [] = Except.ok r ∧ drawRooms cur rooms = Except.ok es ∧
      (∀ s ∈ r.2.map Prod.snd, leadsWith s.data ("  <line").data = true) ∧
      (∀ e ∈ es, leadsWith e.box.data ("  <rect").data = true) ∧
      render_map_svg rooms cur = Except.ok (String.intercalate "\n"
        (svgHeaderParts ++ r.2.map Prod.snd ++ ["", "  <!-- Rooms -->"] ++
          roomEntryParts es ++ ["", "  <!-- Legend -->", legendLine cur, "</svg>"])) := by
  obtain ⟨r, hr⟩ := drawConnections_ok_of_wf rooms [] h
  obtain ⟨es, hes⟩ := drawRooms_ok_of_wf rooms cur h
  refine ⟨r, es, hr, hes, ?_, ?_, ?_⟩
  · intro s hs
    rw [List.mem_map] at hs
    obtain ⟨p, hp, rfl⟩ := hs
    obtain ⟨a, t, dd, hpd⟩ := (drawConnections_inv rooms [] r.1 r.2 hr).2.2.2 p hp
    rw [hpd]
    exact render_connection_leads a t dd
  · intro e he
    obtain ⟨_, _, pos, _, hbox⟩ := drawRooms_mem cur rooms es hes e he
    rw [hbox]
    exact render_room_leads e.id e.id e.isCur pos.2.2
  · unfold render_map_svg
    rw [render_parts_eq rooms cur r es hr hes]

/-- C8 witness: the decomposition at the two-room example input. -/
theorem claim_C8_witness :
    ∃ r es, drawConnections c1Rooms [] = Except.ok r ∧
      drawRooms "tavern" c1Rooms = Except.ok es ∧
      (∀ s ∈ r.2.map Prod.snd, leadsWith s.data ("  <line").data = true) ∧
      (∀ e ∈ es, leadsWith e.box.data ("  <rect").data = true) ∧
      render_map_svg c1Rooms "tavern" = Except.ok (String.intercalate "\n"
        (svgHeaderParts ++ r.2.map Prod.snd ++ ["", "  <!-- Rooms -->"] ++
          roomEntryParts es ++
          ["", "  <!-- Legend -->", legendLine "tavern", "</svg>"])) :=
  claim_C8 c1Rooms "tavern" (by decide)

/-- C9: the legend is rendered from the current identifier alone, by
underscore replacement and title-casing; when that identifier names no
supplied location, no drawn room is styled as current, yet the legend
still shows the formatted identifier. -/
theorem claim_C9 (rooms : List (String × RoomData)) (cur : String)
    (h : WellFormedRooms rooms) (hcur : cur ∉ rooms.map Prod.fst) :
    ∃ r es, drawConnections rooms [] = Except.ok r ∧ drawRooms cur rooms = Except.ok es ∧
      es.countP (fun e => e.isCur) = 0 ∧
      render_map_svg_parts rooms cur = Except.ok (svgHeaderParts ++ r.2.map Prod.snd ++
        ["", "  <!-- Rooms -->"] ++ roomEntryParts es ++
        ["", "  <!-- Legend -->", legendLine cur, "</svg>"]) ∧
      legendLine cur =
        "  <text x=\"10\" y=\"510\" font-family=\"Arial, sans-serif\" font-size=\"10\" fill=\"#666\">Current location: " ++
          pyTitle (pyReplaceUnderscore cur) ++ "</text>" := by
  obtain ⟨r, hr⟩ := drawConnections_ok_of_wf rooms [] h
  obtain ⟨es, hes⟩ := drawRooms_ok_of_wf rooms cur h
  refine ⟨r, es, hr, hes, ?_, render_parts_eq _ _ _ _ hr hes, ?_⟩
  · rw [List.countP_eq_zero]
    intro e he
    obtain ⟨hid, hisCur, _⟩ := drawRooms_mem cur rooms es hes e he
    rw [hisCur]
    simp only [beq_iff_eq]
    intro heq
    exact hcur (heq ▸ hid)
  · have hnum : ("  <text x=\"10\" y=\"" ++ toString (svg_height - 10) ++
        "\" font-family=\"Arial, sans-serif\" font-size=\"10\" fill=\"#666\">Current location: " :
          String) =
        "  <text x=\"10\" y=\"510\" font-family=\"Arial, sans-serif\" font-size=\"10\" fill=\"#666\">Current location: " := by
      decide
    unfold legendLine
    rw [hnum]

/-- C9 witness: with only the tavern supplied and current identifier
"nowhere", no box is current and the legend shows "Nowhere". -/
theorem claim_C9_witness :
    ∃ r es,
      drawConnections [(("tavern" : String), (⟨some (ExitsVal.dict [])⟩ : RoomData))] [] =
        Except.ok r ∧
      drawRooms "nowhere" [("tavern", ⟨some (ExitsVal.dict [])⟩)] = Except.ok es ∧
      es.countP (fun e => e.isCur) = 0 ∧
      render_map_svg_parts [("tavern", ⟨some (ExitsVal.dict [])⟩)] "nowhere" =
        Except.ok (svgHeaderParts ++ r.2.map Prod.snd ++
          ["", "  <!-- Rooms -->"] ++ roomEntryParts es ++
          ["", "  <!-- Legend -->", legendLine "nowhere", "</svg>"]) ∧
      legendLine "nowhere" =
        "  <text x=\"10\" y=\"510\" font-family=\"Arial, sans-serif\" font-size=\"10\" fill=\"#666\">Current location: " ++
          pyTitle (pyReplaceUnderscore "nowhere") ++ "</text>" :=
  claim_C9 [("tavern", ⟨some (ExitsVal.dict [])⟩)] "nowhere" (by decide) (by decide)

/-- C1: on the two-location example with current "tavern", the output
has exactly one current-styled box (the tavern box), exactly one
connection line (the one from street toward village_gate), exactly two
boxes in total (none for village_gate, which only appears as a
connection target), and the legend text "Current location: Tavern". -/
theorem claim_C1 :
    (render_map_svg c1Rooms "tavern").map (fun s => countSubstr s "#4a9eff") =
      Except.ok 1 ∧
    (render_map_svg c1Rooms "tavern").map
        (fun s => countSubstr s (render_room "tavern" "tavern" true 0)) = Except.ok 1 ∧
    (render_map_svg c1Rooms "tavern").map (fun s => countSubstr s "<line") =
      Except.ok 1 ∧
    (render_map_svg c1Rooms "tavern").map
        (fun s => countSubstr s (render_connection "street" "village_gate" "north")) =
      Except.ok 1 ∧
    (render_map_svg c1Rooms "tavern").map (fun s => countSubstr s "<rect x=") =
      Except.ok 2 ∧
    (render_map_svg c1Rooms "tavern").map
        (fun s => countSubstr s (render_room "village_gate" "village_gate" false 0)) =
      Except.ok 0 ∧
    (render_map_svg c1Rooms "tavern").map
        (fun s => countSubstr s "Current location: Tavern") = Except.ok 1 :=
  ⟨rfl, rfl, rfl, rfl, rfl, rfl, rfl⟩

end Svg

